import Mathlib

/-!
# Verification of the Tribler config migration pipeline

A shallow embedding of `tribler_core/upgrade/config_converter.py`: the
four-stage migration of legacy configuration files and per-download
checkpoint files, proved against the natural-language specification.

External collaborators of the source file (the settings object, the
checkpoint readers/writers, the torrent file-table, the Python standard
library primitives `ast.literal_eval`, `lib2to3`, `base64`, and the
libtorrent `bencode` codec) are not part of the source under
verification; they are modelled either as abstract parameters collected
in the `Extern` structure or, where the spec pins their behaviour down, as
definitions whose doc comment says so.
-/

set_option autoImplicit false

/-- Python exceptions that the migration code can raise or catch.  Only the
identity of the exception class matters for control flow. -/
inductive PyError where
  | valueError
  | syntaxError
  | typeError
  | indexError
  | parseError
  | fileNotFound
  deriving DecidableEq, Repr

/-- The universe of Python values the migration manipulates: results of
`ast.literal_eval` (numbers, strings, booleans, `None`, tuples, lists,
dicts with string keys). -/
inductive Value where
  | none
  | bool (b : Bool)
  | int (n : Int)
  | str (s : String)
  | list (xs : List Value)
  | tuple (xs : List Value)
  | dict (kvs : List (String × Value))

/-- Python truthiness of a `Value` (`bool(v)`), used by the `or` fallback in
`convert_config_to_tribler74`. -/
def Value.isTruthy : Value → Bool
  | .none => false
  | .bool b => b
  | .int n => n ≠ 0
  | .str s => s ≠ ""
  | .list xs => ¬ xs.isEmpty
  | .tuple xs => ¬ xs.isEmpty
  | .dict kvs => ¬ kvs.isEmpty

/-- `isinstance(v, list)`. -/
def Value.isList : Value → Bool
  | .list _ => true
  | _ => false

/-- Whether a value is an integer (the shape `selected_files` entries have
after a successful 7.5 migration). -/
def Value.isInt : Value → Bool
  | .int _ => true
  | _ => false

/-- Python `str()` of a value.  Only the scalar cases are relevant to the
source (it applies `str` to port numbers); composite values are given a
fixed placeholder, and no claim depends on them. -/
def pyStr : Value → String
  | .none => "None"
  | .bool b => if b then "True" else "False"
  | .int n => toString n
  | .str s => s
  | _ => "<composite>"

/-- First-match lookup in an association list keyed by strings, the access
discipline of `RawConfigParser` sections/options and of the settings
object's field map. -/
def lookupA {α : Type} : List (String × α) → String → Option α
  | [], _ => Option.none
  | (k', v) :: rest, k => if k' = k then some v else lookupA rest k

/-- Replace the binding of `k` (first occurrence) or append it, the update
discipline of `RawConfigParser.set` and of the settings object's setters. -/
def setA {α : Type} : List (String × α) → String → α → List (String × α)
  | [], k, v => [(k, v)]
  | (k', v') :: rest, k, v =>
      if k' = k then (k, v) :: rest else (k', v') :: setA rest k v

/-- Drop every binding of `k` (sections/options are unique in parsed files,
so this is `remove_section` / `remove_option`). -/
def removeA {α : Type} (l : List (String × α)) (k : String) : List (String × α) :=
  l.filter (fun p => p.1 ≠ k)

theorem lookupA_setA_self {α : Type} (l : List (String × α)) (k : String) (v : α) :
    lookupA (setA l k v) k = some v := by
  induction l with
  | nil => simp [setA, lookupA]
  | cons hd tl ih =>
      by_cases h : hd.1 = k
      · simp [setA, h, lookupA]
      · simp [setA, h, lookupA, ih]

theorem lookupA_setA_ne {α : Type} (l : List (String × α)) (k k' : String) (v : α)
    (h : k ≠ k') : lookupA (setA l k' v) k = lookupA l k := by
  have h' : ¬ k' = k := fun hk => h hk.symm
  induction l with
  | nil => simp [setA, lookupA, h']
  | cons hd tl ih =>
      by_cases hh : hd.1 = k'
      · simp [setA, hh, lookupA, h']
      · by_cases hk : hd.1 = k
        · simp [setA, hh, lookupA, hk, h]
        · simp [setA, hh, lookupA, hk, ih]

/-- The live settings object, viewed through the spec's interface (§6): a
map from named fields to values.  Modelled from the spec: each typed
setter of the real `TriblerConfig` writes one named field, `copy()` is
value semantics. -/
abbrev Cfg : Type := List (String × Value)

/-- Read one settings field. -/
def getKey (cfg : Cfg) (k : String) : Option Value := lookupA cfg k

/-- Write one settings field (what a typed setter or a direct nested-map
assignment does). -/
def setKey (cfg : Cfg) (k : String) (v : Value) : Cfg := setA cfg k v

theorem getKey_setKey_self (cfg : Cfg) (k : String) (v : Value) :
    getKey (setKey cfg k v) k = some v := lookupA_setA_self cfg k v

theorem getKey_setKey_ne (cfg : Cfg) (k k' : String) (v : Value) (h : k ≠ k') :
    getKey (setKey cfg k' v) k = getKey cfg k := lookupA_setA_ne cfg k k' v h

/-- Items of one parsed section: ordered `(option, raw string value)` pairs. -/
abbrev Items : Type := List (String × String)

/-- A parsed line-oriented config file: ordered `(section, items)` pairs,
the in-memory form of `RawConfigParser` / `CallbackConfigParser` /
`ConfigObj` contents. -/
abbrev Sections : Type := List (String × Items)

/-- A structured (`.conf`) checkpoint viewed through the interfaces of
`convert_config_to_tribler75`.  Modelled from the spec: `DownloadConfig`
exposes the `selected_files` field and, via `get_metainfo` and
`TorrentDef.load_from_dict`, the torrent's ordered file table; all other
persisted content is carried through opaquely in `rest`. -/
structure ConfRecord where
  selectedFiles : Option (List Value)
  fileTable : Option (List String)
  rest : Sections

/-- The external collaborators of the source file, as abstract functions:
`validate` is the settings object's validation rule (`False` models a
raised `InvalidConfigException`), `literalEval` is `ast.literal_eval`
(`Option.none` models a raised `ValueError`/`SyntaxError`), `refactor` is
the `lib2to3` source modernizer (`RefactoringTool.refactor_string`,
which raises `ParseError` on unparsable input), `ungarble` is
`recursive_ungarble_metainfo` (modelled from the spec: a best-effort
text-encoding repair), `bencode` is libtorrent's codec, `b64` is
`base64.b64encode(...).decode('utf-8')`, and `loadRecord`/`writeRecord`
are `DownloadConfig.load` and `DownloadConfig.write` (modelled from the
spec's checkpoint reader/writer contract). -/
structure Extern where
  validate : Cfg → Bool
  literalEval : String → Option Value
  refactor : String → Except PyError String
  ungarble : Value → Value
  bencode : Value → Except PyError (List Nat)
  b64 : List Nat → String
  loadRecord : Sections → ConfRecord
  writeRecord : ConfRecord → Sections

/-- One legacy `(section, option, raw string value)` triple as enumerated
by the nested loops of `add_tribler_config` / `add_libtribler_config`. -/
structure LegacyField where
  sec : String
  name : String
  raw : String

/-- Lines 86-90 of the source: attempt `ast.literal_eval(string_value)`;
on `ValueError`/`SyntaxError`, keep the raw string. -/
def decodeField (E : Extern) (raw : String) : Value :=
  match E.literalEval raw with
  | some v => v
  | Option.none => Value.str raw

/-- Events observable in the per-field merge protocol, used to state that
the `"None"` short-circuit happens before decoding, dispatch and
validation. -/
inductive MergeEv where
  | decodeCall
  | dispatch (sec name : String)
  | validateCall

/-- The per-field protocol shared by `add_tribler_config` (lines 82-112)
and `add_libtribler_config` (lines 126-197), generic in the mapping
dispatch `mutate`: skip `"None"`, decode, build the candidate on a copy,
validate, adopt on success and keep the prior baseline on
`InvalidConfigException`.  A `.error` models an exception raised by the
dispatch itself (which the source does not catch). -/
def processField (E : Extern) (mutate : String → String → Value → Cfg → Except PyError Cfg)
    (cfg : Cfg) (f : LegacyField) : Except PyError Cfg :=
  if f.raw = "None" then .ok cfg
  else
    match mutate f.sec f.name (decodeField E f.raw) cfg with
    | .error e => .error e
    | .ok temp => .ok (if E.validate temp then temp else cfg)

/-- `processField` instrumented with the event trace of external calls it
makes, in order.  Identical control flow to `processField`. -/
def processFieldTr (E : Extern) (mutate : String → String → Value → Cfg → Except PyError Cfg)
    (cfg : Cfg) (f : LegacyField) : Except PyError (Cfg × List MergeEv) :=
  if f.raw = "None" then .ok (cfg, [])
  else
    match mutate f.sec f.name (decodeField E f.raw) cfg with
    | .error e => .error e
    | .ok temp =>
        .ok ((if E.validate temp then temp else cfg),
             [MergeEv.decodeCall, MergeEv.dispatch f.sec f.name, MergeEv.validateCall])

theorem processFieldTr_fst (E : Extern)
    (mutate : String → String → Value → Cfg → Except PyError Cfg) (cfg : Cfg) (f : LegacyField) :
    (processFieldTr E mutate cfg f).map Prod.fst = processField E mutate cfg f := by
  unfold processFieldTr processField
  by_cases h : f.raw = "None"
  · simp [h, Except.map]
  · simp only [h, if_false]
    cases mutate f.sec f.name (decodeField E f.raw) cfg <;> simp [Except.map]

/-- The section-then-field loop of both merge functions, flattened: fold
`processField` over the fields in iteration order; an uncaught exception
aborts the pass. -/
def addFieldsFlat (E : Extern) (mutate : String → String → Value → Cfg → Except PyError Cfg) :
    Cfg → List LegacyField → Except PyError Cfg
  | cfg, [] => .ok cfg
  | cfg, f :: fs =>
      match processField E mutate cfg f with
      | .ok cfg' => addFieldsFlat E mutate cfg' fs
      | .error e => .error e

/-- Flatten a parsed legacy file into its `(section, option, value)`
triples in section-then-field iteration order (the order of the two
nested `for` loops). -/
def flattenSections (old : Sections) : List LegacyField :=
  old.foldr (fun p acc => (p.2.map (fun nv => LegacyField.mk p.1 nv.1 nv.2)) ++ acc) []

/-- The field mapping of `add_tribler_config` (lines 93-106): seven
disjoint `if` statements keyed on `(section, name)`; since at most one
guard can match, the sequence is equivalent to this dispatch.  Each typed
setter / nested-map assignment is modelled as writing one named settings
field. -/
def triblerAction : String → String → Option String
  | "Tribler", "default_anonymity_enabled" => some "default_anonymity_enabled"
  | "Tribler", "default_number_hops" => some "default_number_hops"
  | "downloadconfig", "saveas" => some "download_defaults.saveas"
  | "downloadconfig", "seeding_mode" => some "download_defaults.seeding_mode"
  | "downloadconfig", "seeding_ratio" => some "download_defaults.seeding_ratio"
  | "downloadconfig", "seeding_time" => some "download_defaults.seeding_time"
  | "downloadconfig", "version" => some "download_defaults.version"
  | _, _ => Option.none

/-- The mutation step of `add_tribler_config`: apply the mapped setter to
the candidate, or leave it untouched for an unmapped field.  No branch of
this table can raise. -/
def triblerMutate (sec name : String) (v : Value) (cfg : Cfg) : Except PyError Cfg :=
  match triblerAction sec name with
  | some k => .ok (setKey cfg k v)
  | Option.none => .ok cfg

/-- The shapes of mutation appearing in `add_libtribler_config`'s `elif`
chain (lines 137-191): a plain setter write, the list-guarded
`socks5_listen_ports` write (lines 143-145), and the tuple-guarded
two-field `anon_proxyserver` write (lines 170-173). -/
inductive LibAction where
  | setPlain (key : String)
  | setSocks5
  | setAnonProxyServer
  | skip

/-- The field mapping of `add_libtribler_config` (lines 137-191), one
table entry per `elif` arm. -/
def libtriblerAction : String → String → LibAction
  | "general", "state_dir" => .setPlain "state_dir"
  | "general", "log_dir" => .setPlain "log_dir"
  | "tunnel_community", "enabled" => .setPlain "tunnel_community_enabled"
  | "tunnel_community", "socks5_listen_ports" => .setSocks5
  | "tunnel_community", "exitnode_enabled" => .setPlain "tunnel_community_exitnode_enabled"
  | "general", "ec_keypair_filename_multichain" => .setPlain "trustchain_keypair_filename"
  | "torrent_checking", "enabled" => .setPlain "torrent_checking_enabled"
  | "libtorrent", "lt_proxytype" => .setPlain "libtorrent.proxy_type"
  | "libtorrent", "lt_proxyserver" => .setPlain "libtorrent.proxy_server"
  | "libtorrent", "lt_proxyauth" => .setPlain "libtorrent.proxy_auth"
  | "libtorrent", "max_connections_download" => .setPlain "libtorrent_max_conn_download"
  | "libtorrent", "max_download_rate" => .setPlain "libtorrent_max_download_rate"
  | "libtorrent", "max_upload_rate" => .setPlain "libtorrent_max_upload_rate"
  | "libtorrent", "utp" => .setPlain "libtorrent_utp"
  | "libtorrent", "anon_listen_port" => .setPlain "anon_listen_port"
  | "libtorrent", "anon_proxytype" => .setPlain "libtorrent.anon_proxy_type"
  | "libtorrent", "anon_proxyserver" => .setAnonProxyServer
  | "libtorrent", "anon_proxyauth" => .setPlain "libtorrent.anon_proxy_auth"
  | "video", "enabled" => .setPlain "video_server_enabled"
  | "video", "port" => .setPlain "video_server_port"
  | "watch_folder", "enabled" => .setPlain "watch_folder_enabled"
  | "watch_folder", "watch_folder_dir" => .setPlain "watch_folder_path"
  | "http_api", "enabled" => .setPlain "http_api_enabled"
  | "http_api", "port" => .setPlain "http_api_port"
  | "credit_mining", "enabled" => .setPlain "credit_mining_enabled"
  | "credit_mining", "sources" => .setPlain "credit_mining_sources"
  | _, _ => .skip

/-- Apply one `LibAction` to the candidate settings copy.  The
`anon_proxyserver` arm mirrors `isinstance(value, tuple) and
isinstance(value[1], list)`: evaluating `value[1]` on a tuple with fewer
than two elements raises `IndexError`, which nothing in the source
catches. -/
def applyLibAction : LibAction → Value → Cfg → Except PyError Cfg
  | .setPlain k, v, cfg => .ok (setKey cfg k v)
  | .setSocks5, v, cfg =>
      match v with
      | .list _ => .ok (setKey cfg "tunnel_community_socks5_listen_ports" v)
      | _ => .ok cfg
  | .setAnonProxyServer, v, cfg =>
      match v with
      | .tuple (v0 :: v1 :: _) =>
          match v1 with
          | .list ports =>
              .ok (setKey (setKey cfg "libtorrent.anon_proxy_server_ip" v0)
                    "libtorrent.anon_proxy_server_ports"
                    (Value.list (ports.map (fun p => Value.str (pyStr p)))))
          | _ => .ok cfg
      | .tuple _ => .error .indexError
      | _ => .ok cfg
  | .skip, _, cfg => .ok cfg

/-- The mutation step of `add_libtribler_config`: table lookup followed by
the mapped mutation. -/
def libtriblerMutate (sec name : String) (v : Value) (cfg : Cfg) : Except PyError Cfg :=
  applyLibAction (libtriblerAction sec name) v cfg

/-- The settings fields a `LibAction` can write. -/
def libActionKeys : LibAction → List String
  | .setPlain k => [k]
  | .setSocks5 => ["tunnel_community_socks5_listen_ports"]
  | .setAnonProxyServer => ["libtorrent.anon_proxy_server_ip", "libtorrent.anon_proxy_server_ports"]
  | .skip => []

/-- The settings fields the `add_libtribler_config` mapping can write for
a given legacy `(section, name)` pair. -/
def libtriblerKeys (sec name : String) : List String :=
  libActionKeys (libtriblerAction sec name)

/-- `add_tribler_config` (lines 72-113): fold the per-field protocol with
the `tribler.conf` mapping over the file's fields. -/
def add_tribler_config (E : Extern) (newConfig : Cfg) (oldConfig : Sections) :
    Except PyError Cfg :=
  addFieldsFlat E triblerMutate newConfig (flattenSections oldConfig)

/-- `add_libtribler_config` (lines 116-199): fold the per-field protocol
with the `libtribler.conf` mapping over the file's fields. -/
def add_libtribler_config (E : Extern) (newConfig : Cfg) (oldConfig : Sections) :
    Except PyError Cfg :=
  addFieldsFlat E libtriblerMutate newConfig (flattenSections oldConfig)

/-- Section-level helpers over a parsed file: first-match section lookup. -/
def getSection (secs : Sections) (sec : String) : Option Items := lookupA secs sec

/-- `parser.get(section, option)` on a parsed file. -/
def getOpt (secs : Sections) (sec opt : String) : Option String :=
  match lookupA secs sec with
  | some items => lookupA items opt
  | Option.none => Option.none

/-- `parser.set(section, option, value)` / `ConfigObj`-style nested
assignment: the section is created (appended) if missing, and the option
is replaced or appended within it. -/
def setOpt (secs : Sections) (sec opt val : String) : Sections :=
  match lookupA secs sec with
  | some items => setA secs sec (setA items opt val)
  | Option.none => secs ++ [(sec, [(opt, val)])]

/-- `parser.has_option(section, option)`. -/
def hasOpt (secs : Sections) (sec opt : String) : Bool :=
  (getOpt secs sec opt).isSome

/-- `parser.remove_option(section, option)`. -/
def removeOpt (secs : Sections) (sec opt : String) : Sections :=
  match lookupA secs sec with
  | some items => setA secs sec (removeA items opt)
  | Option.none => secs

/-- A `.state` checkpoint file as found on disk: either structurally
corrupt (reading it raises `MissingSectionHeaderError`) or parsed into
its sections. -/
inductive CpRaw where
  | corrupt
  | parsed (secs : Sections)

/-- The migration-relevant on-disk and in-memory state: the settings
object, the two legacy global settings files (parsed contents when they
exist), the `.state` checkpoint files and the `.conf` checkpoint files,
each keyed by base name. -/
structure DirState where
  settings : Cfg
  libtriblerConf : Option Sections
  triblerConf : Option Sections
  stateFiles : List (String × CpRaw)
  confFiles : List (String × Sections)

/-- File-system operations performed by `convert_config_to_tribler74`, in
execution order. -/
inductive FOp where
  | writeConf (name : String) (content : Sections)
  | removeState (name : String)

/-- Delete a `.state` file from the directory. -/
def removeStateFile (s : DirState) (name : String) : DirState :=
  { s with stateFiles := removeA s.stateFiles name }

/-- Lines 57-67 of the source, for one parsed `.state` file: read the
`downloadconfig` items (`NoSectionError` when absent is caught: pass),
add a fresh `download_defaults` section (`DuplicateSectionError` when it
already exists is caught: pass), copy the items over, drop
`downloadconfig`, and write the file back.  `Option.none` means no write
happened. -/
def rename71 (secs : Sections) : Option Sections :=
  match lookupA secs "downloadconfig" with
  | Option.none => Option.none
  | some items =>
      if (lookupA secs "download_defaults").isSome then Option.none
      else some (removeA (secs ++ [("download_defaults", items)]) "downloadconfig")

/-- The checkpoint loop of `convert_config_to_tribler71` (lines 48-67):
a structurally corrupt file is deleted (line 55) and the subsequent
`NoSectionError` on the now-empty parser is caught; a parsed file is
rewritten only when `rename71` applies. -/
def convert71Files (files : List (String × CpRaw)) : List (String × CpRaw) :=
  files.filterMap (fun p =>
    match p.2 with
    | CpRaw.corrupt => Option.none
    | CpRaw.parsed secs => some (p.1, CpRaw.parsed ((rename71 secs).getD secs)))

/-- Tail of `convert_config_to_tribler71` after both legacy global files
are handled: the checkpoint section-rename loop, which cannot raise. -/
def convert71Checkpoints (s : DirState) : DirState × Option PyError :=
  ({ s with stateFiles := convert71Files s.stateFiles }, Option.none)

/-- Middle of `convert_config_to_tribler71` (lines 39-44): if
`tribler.conf` exists, merge it and delete it. -/
def convert71Tribler (E : Extern) (s : DirState) : DirState × Option PyError :=
  match s.triblerConf with
  | Option.none => convert71Checkpoints s
  | some secs =>
      match add_tribler_config E s.settings secs with
      | .error e => (s, some e)
      | .ok cfg' => convert71Checkpoints { s with settings := cfg', triblerConf := Option.none }

/-- `convert_config_to_tribler71` (lines 23-69): merge and delete
`libtribler.conf` if present (an exception from the merge propagates and
leaves the file in place), then likewise `tribler.conf`, then rename the
legacy section inside every `.state` checkpoint. -/
def convert_config_to_tribler71 (E : Extern) (s : DirState) : DirState × Option PyError :=
  match s.libtriblerConf with
  | Option.none => convert71Tribler E s
  | some secs =>
      match add_libtribler_config E s.settings secs with
      | .error e => (s, some e)
      | .ok cfg' => convert71Tribler E { s with settings := cfg', libtriblerConf := Option.none }

/-- Outcome of upgrading one payload field in
`convert_config_to_tribler74` (lines 219-229): the field was re-encoded
and stored (`ok`), a `ValueError`/`SyntaxError` was raised inside the
`try` and caught (`softFail`, leading to file deletion and `continue` of
the inner field loop), or an exception was raised outside the `try` and
propagates (`err`). -/
inductive Field74Result where
  | ok (cfg' : Sections)
  | softFail
  | err (e : PyError)

/-- Lines 220-229 of the source for one `(section, option)` payload
field: read the raw text (a missing option yields `None`, and
`None + '\n'` raises `TypeError`), modernize it with `lib2to3`
(`ParseError` on unparsable input propagates), literal-evaluate it —
line 222, *outside* the `try`, so a `ValueError`/`SyntaxError` here
propagates — apply the un-garble pass, fall back to the raw decoded
value when the un-garbled result is falsy, bencode and base64-encode the
result, and store it.  Only a `ValueError`/`SyntaxError` raised by the
re-encode (line 225, inside the `try`) is caught. -/
def field74 (E : Extern) (cfg : Sections) (sec opt : String) : Field74Result :=
  match getOpt cfg sec opt with
  | Option.none => .err .typeError
  | some raw =>
      match E.refactor (raw ++ "\n") with
      | .error e => .err e
      | .ok refd =>
          match E.literalEval refd with
          | Option.none => .err .valueError
          | some v0 =>
              let ung := E.ungarble v0
              let v' := if ung.isTruthy then ung else v0
              match E.bencode v' with
              | .ok bs => .ok (setOpt cfg sec opt (E.b64 bs))
              | .error e =>
                  if e = .valueError ∨ e = .syntaxError then .softFail else .err e

/-- The inner field loop of `convert_config_to_tribler74` (lines
219-229) over the two payload fields, threading the directory state, the
in-memory parser contents, whether the `.state` file has already been
deleted, and the file-operation trace.  On `softFail` the source deletes
the file (`os.remove` raises `FileNotFoundError` when an earlier
iteration already deleted it) and `continue`s with the *next field* of
the same file. -/
def loop74 (E : Extern) (name : String) :
    List (String × String) → DirState → Sections → Bool → List FOp →
    DirState × Sections × Bool × List FOp × Option PyError
  | [], s, cfg, removed, ops => (s, cfg, removed, ops, Option.none)
  | (sec, opt) :: rest, s, cfg, removed, ops =>
      match field74 E cfg sec opt with
      | .ok cfg' => loop74 E name rest s cfg' removed ops
      | .softFail =>
          if removed then (s, cfg, removed, ops, some .fileNotFound)
          else loop74 E name rest (removeStateFile s name) cfg true (ops ++ [FOp.removeState name])
      | .err e => (s, cfg, removed, ops, some e)

/-- Lines 236-241 of the source: copy every section and key of the
upgraded parser contents into the `ConfigObj` opened on the `.conf`
path (which starts from that file's existing contents when it is already
present).  Values are carried through as a straight copy (spec §4.4:
the legacy decoder is not reapplied). -/
def copyInto (base : Sections) (src : Sections) : Sections :=
  src.foldl (fun acc p => p.2.foldl (fun acc2 kv => setOpt acc2 p.1 kv.1 kv.2) acc) base

/-- Store a `.conf` checkpoint file (the `new_config.write()` of line
242). -/
def setConfFile (s : DirState) (name : String) (content : Sections) : DirState :=
  { s with confFiles := setA s.confFiles name content }

/-- Lines 231-243 of the source: remove `dlstate`, write the `.conf`
file, then `os.remove` the `.state` file. -/
def file74Write (s : DirState) (name : String) (cfg : Sections)
    (removed : Bool) (ops : List FOp) : DirState × List FOp × Option PyError :=
  let cfg1 := if hasOpt cfg "state" "dlstate" then removeOpt cfg "state" "dlstate" else cfg
  let content := copyInto ((lookupA s.confFiles name).getD []) cfg1
  let s1 := setConfFile s name content
  let ops1 := ops ++ [FOp.writeConf name content]
  if removed then (s1, ops1, some .fileNotFound)
  else (removeStateFile s1 name, ops1 ++ [FOp.removeState name], Option.none)

/-- One iteration of the file loop of `convert_config_to_tribler74`
(lines 210-243): read the `.state` file (a structurally corrupt file is
deleted, and — there being no `continue` — processing falls through to
the field loop on the empty parser), upgrade the two payload fields,
drop `dlstate` if present, copy everything into the same-base-name
`.conf` file, write it, and delete the `.state` file (raising
`FileNotFoundError` when a failed field already deleted it). -/
def file74 (E : Extern) (s : DirState) (name : String) (raw : CpRaw) :
    DirState × List FOp × Option PyError :=
  match raw with
  | CpRaw.corrupt =>
      match loop74 E name [("state", "metainfo"), ("state", "engineresumedata")]
          (removeStateFile s name) [] true [FOp.removeState name] with
      | (s', _, _, ops, some e) => (s', ops, some e)
      | (s', cfg', removed', ops, Option.none) =>
          file74Write s' name cfg' removed' ops
  | CpRaw.parsed secs =>
      match loop74 E name [("state", "metainfo"), ("state", "engineresumedata")]
          s secs false [] with
      | (s', _, _, ops, some e) => (s', ops, some e)
      | (s', cfg', removed', ops, Option.none) =>
          file74Write s' name cfg' removed' ops

/-- The file loop of `convert_config_to_tribler74` over the glob
snapshot: an uncaught exception from one file aborts the remaining
files. -/
def convert74Go (E : Extern) :
    List (String × CpRaw) → DirState → List FOp → DirState × List FOp × Option PyError
  | [], s, ops => (s, ops, Option.none)
  | (name, raw) :: rest, s, ops =>
      match file74 E s name raw with
      | (s', fops, Option.none) => convert74Go E rest s' (ops ++ fops)
      | (s', fops, some e) => (s', ops ++ fops, some e)

/-- `convert_config_to_tribler74` (lines 202-243). -/
def convert_config_to_tribler74 (E : Extern) (s : DirState) :
    DirState × List FOp × Option PyError :=
  convert74Go E s.stateFiles s []

/-- Modelled from the spec: the torrent file-table contract (§6) — "given
metadata, return the ordered list of file paths; given a path, return
its index", with exact path match required (§4.5).  An entry that
matches no path (in particular a non-string entry, which Python's `==`
never equates with a path string) raises `ValueError`
(`TorrentDef.get_index_of_file_in_files` is not part of the source under
verification). -/
def get_index_of_file_in_files (files : List String) (fn : Value) : Except PyError Nat :=
  match fn with
  | .str p =>
      match files.findIdx? (fun q => q = p) with
      | some i => .ok i
      | Option.none => .error .valueError
  | _ => .error .valueError

/-- The list comprehension of line 257: resolve the selected entries
left to right; the first unresolvable entry raises. -/
def mapIndices (files : List String) : List Value → Except PyError (List Nat)
  | [] => .ok []
  | fn :: rest =>
      match get_index_of_file_in_files files fn with
      | .error e => .error e
      | .ok i =>
          match mapIndices files rest with
          | .error e => .error e
          | .ok is => .ok (i :: is)

/-- Lines 252-259 of the source at the record level: skip (`continue`,
no write) when `selected_files` is missing or empty or no metainfo is
available; otherwise pop the path list, resolve every entry to its index
in the torrent file table, and store the index list in its place.
`.ok Option.none` is the skip; an unresolvable entry raises before
anything is persisted. -/
def convert75Record (r : ConfRecord) : Except PyError (Option ConfRecord) :=
  match r.selectedFiles, r.fileTable with
  | some sel, some files =>
      if sel.isEmpty then .ok Option.none
      else
        match mapIndices files sel with
        | .ok idxs =>
            .ok (some { r with selectedFiles := some (idxs.map (fun i => Value.int (Int.ofNat i))) })
        | .error e => .error e
  | _, _ => .ok Option.none

/-- The file loop of `convert_config_to_tribler75` (lines 251-259): load
each `.conf` checkpoint, convert its record; a skipped record leaves the
file untouched, a converted record is persisted in place, and an
uncaught exception aborts the remaining files (leaving them, and the
erroring file, untouched). -/
def convert75Go (E : Extern) :
    List (String × Sections) → List (String × Sections) × Option PyError
  | [] => ([], Option.none)
  | (name, secs) :: rest =>
      match convert75Record (E.loadRecord secs) with
      | .ok Option.none =>
          match convert75Go E rest with
          | (r, e) => ((name, secs) :: r, e)
      | .ok (some rec') =>
          match convert75Go E rest with
          | (r, e) => ((name, E.writeRecord rec') :: r, e)
      | .error e => ((name, secs) :: rest, some e)

/-- `convert_config_to_tribler75` (lines 246-259). -/
def convert_config_to_tribler75 (E : Extern) (s : DirState) : DirState × Option PyError :=
  match convert75Go E s.confFiles with
  | (cf, e) => ({ s with confFiles := cf }, e)

/-- The full migration pipeline: stage 7.1, then 7.4, then 7.5, each run
only if its predecessor did not abort with an uncaught exception. -/
def pipeline (E : Extern) (s : DirState) : DirState × Option PyError :=
  match convert_config_to_tribler71 E s with
  | (s1, some e) => (s1, some e)
  | (s1, Option.none) =>
      match convert_config_to_tribler74 E s1 with
      | (s2, _, some e) => (s2, some e)
      | (s2, _, Option.none) => convert_config_to_tribler75 E s2

/-- A default concrete instantiation of the external collaborators, used
by the concrete witnesses below (individual witnesses override fields as
needed). -/
def externA : Extern where
  validate := fun _ => true
  literalEval := fun _ => Option.none
  refactor := fun s => .ok s
  ungarble := id
  bencode := fun _ => .ok []
  b64 := fun _ => ""
  loadRecord := fun _ => ⟨Option.none, Option.none, []⟩
  writeRecord := fun r => r.rest

/-- C5: for every legacy field whose raw string value is exactly `"None"`,
both merge functions (the shared per-field protocol, for any mapping
dispatch) skip the field before decoding: no decode, no dispatch
consultation and no `validate()` call is made, and the returned settings
object is exactly the incoming one. -/
theorem c5_none_skips (E : Extern)
    (mutate : String → String → Value → Cfg → Except PyError Cfg)
    (cfg : Cfg) (f : LegacyField) (h : f.raw = "None") :
    processFieldTr E mutate cfg f = .ok (cfg, []) ∧
    processField E mutate cfg f = .ok cfg := by
  constructor
  · simp [processFieldTr, h]
  · simp [processField, h]

theorem c5_witness :
    processFieldTr externA triblerMutate [] (LegacyField.mk "Tribler" "default_number_hops" "None")
        = .ok ([], []) ∧
    processField externA triblerMutate [] (LegacyField.mk "Tribler" "default_number_hops" "None")
        = .ok [] :=
  c5_none_skips externA triblerMutate [] (LegacyField.mk "Tribler" "default_number_hops" "None") rfl

/-- C3: for every legacy field whose mutated candidate settings object
fails validation, the per-field protocol of both merge functions returns
the baseline exactly as it was before processing that field: the
candidate was built on a copy and is discarded on
`InvalidConfigException`. -/
theorem c3_rejected_keeps_baseline (E : Extern)
    (mutate : String → String → Value → Cfg → Except PyError Cfg)
    (cfg temp : Cfg) (f : LegacyField)
    (hraw : ¬ f.raw = "None")
    (hmut : mutate f.sec f.name (decodeField E f.raw) cfg = .ok temp)
    (hval : E.validate temp = false) :
    processField E mutate cfg f = .ok cfg := by
  simp [processField, hraw, hmut, hval]

theorem c3_witness :
    processField { externA with validate := fun _ => false } triblerMutate []
        (LegacyField.mk "Tribler" "default_number_hops" "1") = .ok [] :=
  c3_rejected_keeps_baseline { externA with validate := fun _ => false } triblerMutate []
    [("default_number_hops", Value.str "1")]
    (LegacyField.mk "Tribler" "default_number_hops" "1") (by decide) rfl rfl

/-- C8: in `convert_config_to_tribler74`, for each payload field, when the
un-garble pass yields a falsy result the value re-encoded through the
current codec is the raw structured value literal-evaluated from the
modernized field text, otherwise it is the un-garbled value; in either
case the stored field value is the base64 text encoding of the bencoded
result. -/
theorem c8_reencode_value (E : Extern) (cfg : Sections) (sec opt raw refd : String)
    (v0 : Value) (bs : List Nat)
    (h1 : getOpt cfg sec opt = some raw)
    (h2 : E.refactor (raw ++ "\n") = .ok refd)
    (h3 : E.literalEval refd = some v0)
    (h4 : E.bencode (if (E.ungarble v0).isTruthy then E.ungarble v0 else v0) = .ok bs) :
    field74 E cfg sec opt = Field74Result.ok (setOpt cfg sec opt (E.b64 bs)) := by
  simp [field74, h1, h2, h3, h4]

def externC8 : Extern :=
  { externA with
    literalEval := fun s => if s = "{}\n" then some (Value.dict []) else Option.none,
    bencode := fun _ => .ok [1, 2, 3],
    b64 := fun _ => "AQID" }

theorem c8_witness :
    field74 externC8 [("state", [("metainfo", "{}")])] "state" "metainfo"
      = Field74Result.ok (setOpt [("state", [("metainfo", "{}")])] "state" "metainfo" "AQID") :=
  c8_reencode_value externC8 [("state", [("metainfo", "{}")])] "state" "metainfo"
    "{}" "{}\n" (Value.dict []) [1, 2, 3] rfl rfl rfl rfl

def externC10 : Extern :=
  { externA with
    literalEval := fun s => if s = "(5,)" then some (Value.tuple [Value.int 5]) else Option.none }

/-- C10, counterexample: the claim says that for any decoded
`anon_proxyserver` value not of the shape "tuple whose second element is
a list" the settings are left unchanged and no error is raised by
indexing; but for the one-element tuple `(5,)` the guard
`isinstance(value, tuple) and isinstance(value[1], list)` evaluates
`value[1]` and raises `IndexError`, which propagates out of
`add_libtribler_config`. -/
theorem c10_counterexample :
    add_libtribler_config externC10 [] [("libtorrent", [("anon_proxyserver", "(5,)")])]
      = .error PyError.indexError := rfl

/-- C10, amended: `socks5_listen_ports` is applied only when the decoded
value is a list (any non-list leaves the settings unchanged), and
`anon_proxyserver` is applied only when the decoded value is a tuple of
length at least two whose second element is a list; a non-tuple, or a
tuple of length at least two whose second element is not a list, leaves
the settings unchanged with no error, but a tuple of length below two
raises `IndexError` when the guard indexes it. -/
theorem c10_amended (v : Value) (cfg : Cfg) :
    (Value.isList v = false →
      libtriblerMutate "tunnel_community" "socks5_listen_ports" v cfg = .ok cfg) ∧
    (libtriblerMutate "libtorrent" "anon_proxyserver" v cfg =
      match v with
      | .tuple (v0 :: .list ports :: _) =>
          .ok (setKey (setKey cfg "libtorrent.anon_proxy_server_ip" v0)
                "libtorrent.anon_proxy_server_ports"
                (Value.list (ports.map (fun p => Value.str (pyStr p)))))
      | .tuple vs => if vs.length < 2 then .error PyError.indexError else .ok cfg
      | _ => .ok cfg) := by
  constructor
  · intro h
    cases v with
    | list xs => simp [Value.isList] at h
    | none => rfl
    | bool b => rfl
    | int n => rfl
    | str s => rfl
    | tuple xs => rfl
    | dict kvs => rfl
  · cases v with
    | tuple xs =>
        cases xs with
        | nil => rfl
        | cons v0 tl =>
            cases tl with
            | nil => rfl
            | cons v1 tl2 => cases v1 <;> rfl
    | none => rfl
    | bool b => rfl
    | int n => rfl
    | str s => rfl
    | list xs => rfl
    | dict kvs => rfl

theorem c10_amended_witness :
    libtriblerMutate "tunnel_community" "socks5_listen_ports" (Value.int 7) []
        = .ok ([] : Cfg) :=
  (c10_amended (Value.int 7) []).1 rfl

theorem convert71Tribler_files (E : Extern) (s : DirState)
    (h : (convert71Tribler E s).2 = Option.none) :
    (convert71Tribler E s).1.libtriblerConf = s.libtriblerConf ∧
    (convert71Tribler E s).1.triblerConf = Option.none := by
  cases ht : s.triblerConf with
  | none =>
      simp only [convert71Tribler, ht] at h ⊢
      exact ⟨rfl, ht⟩
  | some secs =>
      simp only [convert71Tribler, ht] at h ⊢
      cases hm : add_tribler_config E s.settings secs with
      | error e =>
          simp only [hm] at h
          exact Option.noConfusion h
      | ok cfg' =>
          simp only [hm] at h ⊢
          exact ⟨rfl, rfl⟩

/-- C6: whenever `convert_config_to_tribler71` returns (does not abort
with an uncaught exception), both legacy global settings files are gone:
each existing one was deleted immediately after its merge call returned,
regardless of whether any field was actually merged. -/
theorem c6_legacy_files_deleted (E : Extern) (s : DirState)
    (h : (convert_config_to_tribler71 E s).2 = Option.none) :
    (convert_config_to_tribler71 E s).1.libtriblerConf = Option.none ∧
    (convert_config_to_tribler71 E s).1.triblerConf = Option.none := by
  cases hl : s.libtriblerConf with
  | none =>
      simp only [convert_config_to_tribler71, hl] at h ⊢
      have := convert71Tribler_files E s h
      exact ⟨this.1.trans hl, this.2⟩
  | some secs =>
      simp only [convert_config_to_tribler71, hl] at h ⊢
      cases hm : add_libtribler_config E s.settings secs with
      | error e =>
          simp only [hm] at h
          exact Option.noConfusion h
      | ok cfg' =>
          simp only [hm] at h ⊢
          have := convert71Tribler_files E
            { s with settings := cfg', libtriblerConf := Option.none } h
          exact ⟨this.1, this.2⟩

def externC6 : Extern := { externA with validate := fun _ => false }

def dirC6 : DirState :=
  { settings := [("k", Value.int 1)],
    libtriblerConf := some [("general", [("log_dir", "/x")])],
    triblerConf := some [("Tribler", [("default_number_hops", "3")])],
    stateFiles := [], confFiles := [] }

theorem c6_witness :
    (convert_config_to_tribler71 externC6 dirC6).2 = Option.none ∧
    ((convert_config_to_tribler71 externC6 dirC6).1.libtriblerConf = Option.none ∧
     (convert_config_to_tribler71 externC6 dirC6).1.triblerConf = Option.none) ∧
    (convert_config_to_tribler71 externC6 dirC6).1.settings = dirC6.settings :=
  ⟨rfl, c6_legacy_files_deleted externC6 dirC6 rfl, rfl⟩

/-- C7: for a structured checkpoint whose `selected_files` is
`["a.txt", "c.txt"]` and whose torrent file table is
`["a.txt", "b.txt", "c.txt"]`, the 7.5 migration replaces the field by
the positional index list `[0, 2]` (removing the path list); when the
field is missing or no metainfo is available the record is skipped and
the file left untouched. -/
theorem c7_selected_files (r : ConfRecord) :
    convert75Record
        ⟨some [Value.str "a.txt", Value.str "c.txt"], some ["a.txt", "b.txt", "c.txt"], []⟩
      = .ok (some ⟨some [Value.int 0, Value.int 2], some ["a.txt", "b.txt", "c.txt"], []⟩) ∧
    (r.selectedFiles = Option.none → convert75Record r = .ok Option.none) ∧
    (r.fileTable = Option.none → convert75Record r = .ok Option.none) := by
  refine ⟨rfl, ?_, ?_⟩
  · intro h
    obtain ⟨sf, ft, rest⟩ := r
    simp only at h
    subst h
    cases ft <;> rfl
  · intro h
    obtain ⟨sf, ft, rest⟩ := r
    simp only at h
    subst h
    cases sf <;> rfl

theorem c7_witness :
    convert75Record ⟨Option.none, some ["a.txt"], []⟩ = .ok Option.none ∧
    convert75Record ⟨some [Value.str "a.txt"], Option.none, []⟩ = .ok Option.none :=
  ⟨(c7_selected_files ⟨Option.none, some ["a.txt"], []⟩).2.1 rfl,
   (c7_selected_files ⟨some [Value.str "a.txt"], Option.none, []⟩).2.2 rfl⟩

theorem loop74_removed_stays (E : Extern) (name : String) :
    ∀ (fields : List (String × String)) (s : DirState) (cfg : Sections) (ops : List FOp),
    (loop74 E name fields s cfg true ops).2.2.1 = true := by
  intro fields
  induction fields with
  | nil => intro s cfg ops; rfl
  | cons fo rest ih =>
      intro s cfg ops
      obtain ⟨sec, opt⟩ := fo
      simp only [loop74]
      cases field74 E cfg sec opt with
      | ok cfg' => exact ih s cfg' ops
      | softFail => rfl
      | err e => rfl

theorem loop74_ops_of_not_removed (E : Extern) (name : String) :
    ∀ (fields : List (String × String)) (s : DirState) (cfg : Sections) (ops : List FOp),
    (loop74 E name fields s cfg false ops).2.2.1 = false →
    (loop74 E name fields s cfg false ops).2.2.2.1 = ops := by
  intro fields
  induction fields with
  | nil => intro s cfg ops _; rfl
  | cons fo rest ih =>
      intro s cfg ops h
      obtain ⟨sec, opt⟩ := fo
      simp only [loop74] at h ⊢
      cases hf : field74 E cfg sec opt with
      | ok cfg' =>
          rw [hf] at h
          exact ih s cfg' ops h
      | softFail =>
          rw [hf] at h
          have h' : (loop74 E name rest (removeStateFile s name) cfg true
              (ops ++ [FOp.removeState name])).2.2.1 = false := h
          rw [loop74_removed_stays] at h'
          exact absurd h' (by simp)
      | err e => rfl

theorem loop74_confFiles (E : Extern) (name : String) :
    ∀ (fields : List (String × String)) (s : DirState) (cfg : Sections) (removed : Bool)
      (ops : List FOp),
    (loop74 E name fields s cfg removed ops).1.confFiles = s.confFiles := by
  intro fields
  induction fields with
  | nil => intro s cfg removed ops; rfl
  | cons fo rest ih =>
      intro s cfg removed ops
      obtain ⟨sec, opt⟩ := fo
      simp only [loop74]
      cases field74 E cfg sec opt with
      | ok cfg' => exact ih s cfg' removed ops
      | softFail =>
          cases removed with
          | true => rfl
          | false => exact ih (removeStateFile s name) cfg true (ops ++ [FOp.removeState name])
      | err e => rfl

/-- C9: whenever `convert_config_to_tribler74` successfully upgrades a
parsed `.state` checkpoint (no uncaught exception for that file), the
file operations it performed are exactly a full write of the `.conf`
file with the same base name, built by copying every section and key of
the upgraded contents into the existing `.conf` contents, followed by —
and only then — deletion of the `.state` file. -/
theorem c9_write_before_delete (E : Extern) (s : DirState) (name : String) (secs : Sections)
    (h : (file74 E s name (CpRaw.parsed secs)).2.2 = Option.none) :
    ∃ cfg', (file74 E s name (CpRaw.parsed secs)).2.1
      = [FOp.writeConf name (copyInto ((lookupA s.confFiles name).getD []) cfg'),
         FOp.removeState name] := by
  simp only [file74] at h ⊢
  rcases hl : loop74 E name [("state", "metainfo"), ("state", "engineresumedata")]
      s secs false [] with ⟨s', cfg', removed', ops', err'⟩
  rw [hl] at h
  cases err' with
  | some e =>
      have h' : (some e : Option PyError) = Option.none := h
      exact Option.noConfusion h'
  | none =>
      cases removed' with
      | true =>
          have h' : (some PyError.fileNotFound : Option PyError) = Option.none := h
          exact Option.noConfusion h'
      | false =>
          have hops : ops' = [] := by
            have hh := loop74_ops_of_not_removed E name
              [("state", "metainfo"), ("state", "engineresumedata")] s secs []
            rw [hl] at hh
            exact hh rfl
          have hsfiles : s'.confFiles = s.confFiles := by
            have hh := loop74_confFiles E name
              [("state", "metainfo"), ("state", "engineresumedata")] s secs false []
            rw [hl] at hh
            exact hh
          subst hops
          rw [← hsfiles]
          exact ⟨if hasOpt cfg' "state" "dlstate" then removeOpt cfg' "state" "dlstate"
                 else cfg', rfl⟩

def externC9 : Extern :=
  { externA with
    literalEval := fun _ => some (Value.dict [("a", Value.int 1)]),
    bencode := fun _ => .ok [1],
    b64 := fun _ => "AQ==" }

def secsC9 : Sections := [("state", [("metainfo", "M"), ("engineresumedata", "R")])]

def dirC9 : DirState :=
  { settings := [], libtriblerConf := Option.none, triblerConf := Option.none,
    stateFiles := [("dl1", CpRaw.parsed secsC9)], confFiles := [] }

theorem c9_witness :
    (file74 externC9 dirC9 "dl1" (CpRaw.parsed secsC9)).2.2 = Option.none ∧
    ∃ cfg', (file74 externC9 dirC9 "dl1" (CpRaw.parsed secsC9)).2.1
      = [FOp.writeConf "dl1" (copyInto ((lookupA dirC9.confFiles "dl1").getD []) cfg'),
         FOp.removeState "dl1"] :=
  ⟨rfl, c9_write_before_delete externC9 dirC9 "dl1" secsC9 rfl⟩

theorem applyLibAction_getKey_ne (a : LibAction) (v : Value) (cfg cfg' : Cfg) (k : String)
    (hk : ¬ k ∈ libActionKeys a) (h : applyLibAction a v cfg = .ok cfg') :
    getKey cfg' k = getKey cfg k := by
  cases a with
  | setPlain key =>
      simp only [libActionKeys, List.mem_singleton] at hk
      simp only [applyLibAction, Except.ok.injEq] at h
      subst h
      exact getKey_setKey_ne cfg k key v hk
  | setSocks5 =>
      simp only [libActionKeys, List.mem_singleton] at hk
      cases v with
      | list xs =>
          simp only [applyLibAction, Except.ok.injEq] at h
          subst h
          exact getKey_setKey_ne cfg k "tunnel_community_socks5_listen_ports" _ hk
      | none => exact congrArg (getKey · k) (Except.ok.inj h).symm
      | bool b => exact congrArg (getKey · k) (Except.ok.inj h).symm
      | int n => exact congrArg (getKey · k) (Except.ok.inj h).symm
      | str s => exact congrArg (getKey · k) (Except.ok.inj h).symm
      | tuple xs => exact congrArg (getKey · k) (Except.ok.inj h).symm
      | dict kvs => exact congrArg (getKey · k) (Except.ok.inj h).symm
  | setAnonProxyServer =>
      simp only [libActionKeys, List.mem_cons, List.mem_singleton] at hk
      push_neg at hk
      cases v with
      | tuple xs =>
          cases xs with
          | nil => exact Except.noConfusion h
          | cons v0 tl =>
              cases tl with
              | nil => exact Except.noConfusion h
              | cons v1 tl2 =>
                  cases v1 with
                  | list ports =>
                      simp only [applyLibAction, Except.ok.injEq] at h
                      subst h
                      rw [getKey_setKey_ne _ k _ _ hk.2.1, getKey_setKey_ne _ k _ _ hk.1]
                  | none => exact congrArg (getKey · k) (Except.ok.inj h).symm
                  | bool b => exact congrArg (getKey · k) (Except.ok.inj h).symm
                  | int n => exact congrArg (getKey · k) (Except.ok.inj h).symm
                  | str s => exact congrArg (getKey · k) (Except.ok.inj h).symm
                  | tuple ys => exact congrArg (getKey · k) (Except.ok.inj h).symm
                  | dict kvs => exact congrArg (getKey · k) (Except.ok.inj h).symm
      | none => exact congrArg (getKey · k) (Except.ok.inj h).symm
      | bool b => exact congrArg (getKey · k) (Except.ok.inj h).symm
      | int n => exact congrArg (getKey · k) (Except.ok.inj h).symm
      | str s => exact congrArg (getKey · k) (Except.ok.inj h).symm
      | list xs => exact congrArg (getKey · k) (Except.ok.inj h).symm
      | dict kvs => exact congrArg (getKey · k) (Except.ok.inj h).symm
  | skip => exact congrArg (getKey · k) (Except.ok.inj h).symm

theorem processField_getKey_ne (E : Extern) (cfg cfg' : Cfg) (f : LegacyField) (k : String)
    (hk : ¬ k ∈ libtriblerKeys f.sec f.name)
    (h : processField E libtriblerMutate cfg f = .ok cfg') :
    getKey cfg' k = getKey cfg k := by
  unfold processField at h
  by_cases hraw : f.raw = "None"
  · rw [if_pos hraw] at h
    exact congrArg (getKey · k) (Except.ok.inj h).symm
  · rw [if_neg hraw] at h
    cases hm : libtriblerMutate f.sec f.name (decodeField E f.raw) cfg with
    | error e => rw [hm] at h; exact Except.noConfusion h
    | ok temp =>
        rw [hm] at h
        have h' : Except.ok (if E.validate temp = true then temp else cfg) = Except.ok cfg' := h
        have htk : getKey temp k = getKey cfg k :=
          applyLibAction_getKey_ne (libtriblerAction f.sec f.name) _ cfg temp k hk hm
        cases hv : E.validate temp with
        | true =>
            rw [hv, if_pos rfl] at h'
            rw [← Except.ok.inj h']
            exact htk
        | false =>
            rw [hv, if_neg (by simp : ¬ (false = true))] at h'
            exact congrArg (getKey · k) (Except.ok.inj h').symm

theorem addFieldsFlat_getKey_ne (E : Extern) (k : String) :
    ∀ (fs : List LegacyField) (cfg cfg' : Cfg),
    (∀ g ∈ fs, ¬ k ∈ libtriblerKeys g.sec g.name) →
    addFieldsFlat E libtriblerMutate cfg fs = .ok cfg' →
    getKey cfg' k = getKey cfg k := by
  intro fs
  induction fs with
  | nil =>
      intro cfg cfg' _ h
      exact congrArg (getKey · k) (Except.ok.inj h).symm
  | cons f rest ih =>
      intro cfg cfg' hall h
      simp only [addFieldsFlat] at h
      cases hp : processField E libtriblerMutate cfg f with
      | error e => rw [hp] at h; exact Except.noConfusion h
      | ok cfg1 =>
          rw [hp] at h
          have h1 : getKey cfg1 k = getKey cfg k :=
            processField_getKey_ne E cfg cfg1 f k (hall f (List.mem_cons_self f rest)) hp
          have h2 : getKey cfg' k = getKey cfg1 k :=
            ih cfg1 cfg' (fun g hg => hall g (List.mem_cons_of_mem f hg)) h
          exact h2.trans h1

/-- C4: in `add_libtribler_config`, a well-formed legacy field with a
known mapping whose decoded value keeps the mutated candidate valid is
adopted — the returned settings object is exactly the candidate carrying
the field's new value — and any settings key it wrote survives the
processing of all later fields whose mappings do not write that key. -/
theorem c4_valid_field_merged (E : Extern) (cfg temp cfg' : Cfg) (f : LegacyField)
    (rest : List LegacyField) (k : String)
    (hraw : ¬ f.raw = "None")
    (hmut : libtriblerMutate f.sec f.name (decodeField E f.raw) cfg = .ok temp)
    (hval : E.validate temp = true)
    (hrest : ∀ g ∈ rest, ¬ k ∈ libtriblerKeys g.sec g.name)
    (hrun : addFieldsFlat E libtriblerMutate temp rest = .ok cfg') :
    processField E libtriblerMutate cfg f = .ok temp ∧
    getKey cfg' k = getKey temp k := by
  constructor
  · simp [processField, hraw, hmut, hval]
  · exact addFieldsFlat_getKey_ne E k rest temp cfg' hrest hrun

theorem c4_witness :
    processField externA libtriblerMutate [] (LegacyField.mk "general" "log_dir" "/y")
        = .ok [("log_dir", Value.str "/y")] ∧
    getKey [("log_dir", Value.str "/y"), ("video_server_port", Value.str "80")] "log_dir"
        = getKey [("log_dir", Value.str "/y")] "log_dir" :=
  c4_valid_field_merged externA [] [("log_dir", Value.str "/y")]
    [("log_dir", Value.str "/y"), ("video_server_port", Value.str "80")]
    (LegacyField.mk "general" "log_dir" "/y")
    [LegacyField.mk "video" "port" "80"] "log_dir"
    (by decide) rfl rfl
    (by
      intro g hg
      simp only [List.mem_singleton] at hg
      subst hg
      decide)
    rfl

/-- A `.conf` checkpoint record as the 7.5 migration itself leaves it: the
`selected_files` field is absent, or holds a list of integer indices
(possibly empty). -/
def migratedRecord (r : ConfRecord) : Prop :=
  r.selectedFiles = Option.none ∨
  ∃ l, r.selectedFiles = some l ∧ ∀ v ∈ l, v.isInt = true

theorem convert75Record_migrated (sf : Option (List Value)) (ft : Option (List String))
    (rst : Sections) (h : migratedRecord ⟨sf, ft, rst⟩) :
    convert75Record ⟨sf, ft, rst⟩ = .ok Option.none ∨
    convert75Record ⟨sf, ft, rst⟩ = .error PyError.valueError := by
  rcases h with hnone | ⟨l, hsel, hints⟩
  · simp only at hnone
    subst hnone
    cases ft with
    | none => exact Or.inl rfl
    | some files => exact Or.inl rfl
  · simp only at hsel
    subst hsel
    cases ft with
    | none => exact Or.inl rfl
    | some files =>
        cases l with
        | nil => exact Or.inl rfl
        | cons v l' =>
            have hv := hints v (List.mem_cons_self _ _)
            cases v with
            | int n => exact Or.inr rfl
            | none => simp [Value.isInt] at hv
            | bool b => simp [Value.isInt] at hv
            | str s => simp [Value.isInt] at hv
            | list xs => simp [Value.isInt] at hv
            | tuple xs => simp [Value.isInt] at hv
            | dict kvs => simp [Value.isInt] at hv

theorem convert75Go_fixpoint (E : Extern) :
    ∀ l : List (String × Sections),
    (∀ p ∈ l, migratedRecord (E.loadRecord p.2)) →
    (convert75Go E l).1 = l := by
  intro l
  induction l with
  | nil => intro _; rfl
  | cons p rest ih =>
      intro hall
      obtain ⟨name, secs⟩ := p
      have hr := hall ⟨name, secs⟩ (List.mem_cons_self _ _)
      simp only [convert75Go]
      rcases hE : E.loadRecord secs with ⟨sf, ft, rst⟩
      rw [hE] at hr
      rcases convert75Record_migrated sf ft rst hr with hcase | hcase
      · rw [hcase]
        rcases hgo : convert75Go E rest with ⟨r, e⟩
        have hrest := ih (fun g hg => hall g (List.mem_cons_of_mem _ hg))
        rw [hgo] at hrest
        have hr2 : r = rest := hrest
        subst hr2
        rfl
      · rw [hcase]

/-- C2: running the full pipeline on an already-fully-migrated directory
— no legacy global settings files, no `.state` checkpoints, and every
`.conf` checkpoint's `selected_files` absent or already a list of
integer indices — changes nothing: every file's contents and the
settings object are exactly as before. -/
theorem c2_pipeline_idempotent (E : Extern) (s : DirState)
    (h1 : s.libtriblerConf = Option.none)
    (h2 : s.triblerConf = Option.none)
    (h3 : s.stateFiles = [])
    (h4 : ∀ p ∈ s.confFiles, migratedRecord (E.loadRecord p.2)) :
    (pipeline E s).1 = s := by
  obtain ⟨cfgS, lc, tc, stf, cff⟩ := s
  simp only at h1 h2 h3 h4
  subst h1
  subst h2
  subst h3
  have hs71 : convert_config_to_tribler71 E
      ⟨cfgS, Option.none, Option.none, [], cff⟩
      = (⟨cfgS, Option.none, Option.none, [], cff⟩, Option.none) := rfl
  have hs74 : convert_config_to_tribler74 E
      ⟨cfgS, Option.none, Option.none, [], cff⟩
      = (⟨cfgS, Option.none, Option.none, [], cff⟩, [], Option.none) := rfl
  simp only [pipeline, hs71, hs74]
  simp only [convert_config_to_tribler75]
  rcases hgo : convert75Go E cff with ⟨cf, e⟩
  have hfix := convert75Go_fixpoint E cff h4
  rw [hgo] at hfix
  have hcf : cf = cff := hfix
  subst hcf
  rfl

def externC2 : Extern :=
  { externA with
    loadRecord := fun secs => ⟨some [Value.int 0, Value.int 2], some ["a.txt"], secs⟩ }

def dirC2 : DirState :=
  { settings := [("x", Value.int 1)], libtriblerConf := Option.none,
    triblerConf := Option.none, stateFiles := [],
    confFiles := [("c1", [("download_defaults", [("selected_files", "[0, 2]")])])] }

theorem c2_witness :
    (pipeline externC2 dirC2).1 = dirC2 :=
  c2_pipeline_idempotent externC2 dirC2 rfl rfl rfl
    (by
      intro p hp
      right
      refine ⟨[Value.int 0, Value.int 2], rfl, ?_⟩
      decide)

def externC1 : Extern :=
  { externA with
    literalEval := fun s => if s = "{}\n" then some (Value.dict []) else Option.none,
    bencode := fun _ => .ok [100],
    b64 := fun _ => "ZA==" }

def badSecs : Sections := [("state", [("metainfo", "oops("), ("engineresumedata", "{}")])]

def goodSecs : Sections := [("state", [("metainfo", "{}"), ("engineresumedata", "{}")])]

def dirC1 : DirState :=
  { settings := [], libtriblerConf := Option.none, triblerConf := Option.none,
    stateFiles := [("bad", CpRaw.parsed badSecs), ("good", CpRaw.parsed goodSecs)],
    confFiles := [] }

/-- C1: the claim says a checkpoint file whose metainfo blob cannot be
decoded is deleted, with migration of sibling files continuing; but the
`ast.literal_eval` of line 222 sits outside the `try`/`except`, so on a
`.state` file whose modernized metainfo text is not a parsable literal
the `ValueError` propagates out of `convert_config_to_tribler74`: the
corrupt file is not deleted, and the sibling file — which on its own
would convert cleanly — is never migrated. -/
theorem c1_corrupt_blob_aborts_scan :
    (convert_config_to_tribler74 externC1 dirC1).2.2 = some PyError.valueError ∧
    (convert_config_to_tribler74 externC1 dirC1).1.stateFiles = dirC1.stateFiles ∧
    (convert_config_to_tribler74 externC1 dirC1).1.confFiles = [] ∧
    (file74 externC1 dirC1 "good" (CpRaw.parsed goodSecs)).2.2 = Option.none :=
  ⟨rfl, rfl, rfl, rfl⟩
